import Mathlib

/-!
Verification of the WebBaoGia backend (src/server.js) against its
specification.  The server is an Express application over MongoDB with
three collections (users, series, products), bcrypt password hashing and
JWT bearer authentication.  We give a shallow embedding: each collection
is a list of records, each route handler is a pure function from the
request data and the store to a response (and, for writes, a new store).

Library calls that live outside the repository (bcryptjs, jsonwebtoken)
are modelled at the level this server observes them: a bcrypt hash is a
string from which `compare` recovers the cost/salt and recomputes the
digest, and a JWT is a dot-separated string `jwt.<id>.<exp>.<sig>.<user>`
whose verification reparses the string and recomputes the signature.
What matters for the claims is preserved: hashing is deterministic per
salt and injective in the password, signing embeds the claims and an
expiry one hour after issuance, and verification accepts exactly the
well-formed unexpired strings produced by signing -- in particular a
string with a "Bearer " prefix is never a well-formed token.
-/

namespace WebBaoGia

/-! ## Decimal rendering and parsing of natural numbers

Used by the models of bcrypt hash strings and JWT strings.  `natChars n`
is the big-endian decimal rendering of `n` (empty for 0, which is fine:
the parser then reads an empty digit run as 0). -/

/-- Big-endian decimal digit characters of a natural number. -/
def natChars (n : Nat) : List Char :=
  ((Nat.digits 10 n).reverse).map fun d => Char.ofNat (48 + d)

/-- Read a decimal digit run terminated by the delimiter `delim`,
returning the accumulated value and the characters after the delimiter. -/
def parseNum (delim : Char) : List Char → Nat → Option (Nat × List Char)
  | [], _ => none
  | c :: cs, acc =>
    if c = delim then some (acc, cs)
    else if c.isDigit then parseNum delim cs (10 * acc + (c.toNat - 48))
    else none

lemma digit_char_spec {d : Nat} (hd : d < 10) :
    (Char.ofNat (48 + d)).isDigit = true ∧ (Char.ofNat (48 + d)).toNat = 48 + d := by
  interval_cases d <;> exact ⟨rfl, rfl⟩

lemma natChars_isDigit {n : Nat} : ∀ c ∈ natChars n, c.isDigit = true := by
  intro c hc
  rcases List.mem_map.mp hc with ⟨d, hdmem, rfl⟩
  have hd : d < 10 :=
    Nat.digits_lt_base (by norm_num) (List.mem_reverse.mp hdmem)
  exact (digit_char_spec hd).1

lemma parseNum_append {delim : Char} (hdelim : delim.isDigit = false) :
    ∀ (ds : List Char) (acc : Nat) (rest : List Char),
      (∀ c ∈ ds, c.isDigit = true) →
      parseNum delim (ds ++ delim :: rest) acc =
        some (ds.foldl (fun a c => 10 * a + (c.toNat - 48)) acc, rest) := by
  intro ds
  induction ds with
  | nil =>
      intro acc rest _
      simp [parseNum]
  | cons c cs ih =>
      intro acc rest hds
      have hc : c.isDigit = true := hds c (List.mem_cons_self c cs)
      have hne : c ≠ delim := by
        intro h; rw [h] at hc; rw [hc] at hdelim; cases hdelim
      have hrec := ih (10 * acc + (c.toNat - 48)) rest
        (fun x hx => hds x (List.mem_cons_of_mem c hx))
      simp [parseNum, hne, hc, hrec]

lemma foldl_digits_chr (M : List Nat) :
    (∀ d ∈ M, d < 10) → ∀ acc : Nat,
    (M.map fun d => Char.ofNat (48 + d)).foldl
        (fun a c => 10 * a + (c.toNat - 48)) acc =
      M.foldl (fun a d => 10 * a + d) acc := by
  induction M with
  | nil => intro _ acc; rfl
  | cons d M ih =>
      intro hM acc
      have hd : d < 10 := hM d (List.mem_cons_self d M)
      have htoNat : (Char.ofNat (48 + d)).toNat = 48 + d := (digit_char_spec hd).2
      simp only [List.map_cons, List.foldl_cons, htoNat,
        Nat.add_sub_cancel_left]
      exact ih (fun x hx => hM x (List.mem_cons_of_mem d hx)) _

lemma foldl_reverse_ofDigits (L : List Nat) :
    L.reverse.foldl (fun a d => 10 * a + d) 0 = Nat.ofDigits 10 L := by
  induction L with
  | nil => rfl
  | cons d L ih =>
      rw [List.reverse_cons, List.foldl_append, ih, Nat.ofDigits_cons]
      simp only [List.foldl_cons, List.foldl_nil]
      ring

lemma foldl_natChars (n : Nat) :
    (natChars n).foldl (fun a c => 10 * a + (c.toNat - 48)) 0 = n := by
  unfold natChars
  rw [foldl_digits_chr _
    (fun d hd => Nat.digits_lt_base (by norm_num) (List.mem_reverse.mp hd)) 0]
  rw [foldl_reverse_ofDigits, Nat.ofDigits_digits]

/-- Parsing a rendered number followed by the delimiter recovers the
number and the remainder of the input. -/
lemma parseNum_natChars {delim : Char} (hdelim : delim.isDigit = false)
    (n : Nat) (rest : List Char) :
    parseNum delim (natChars n ++ delim :: rest) 0 = some (n, rest) := by
  rw [parseNum_append hdelim (natChars n) 0 rest natChars_isDigit,
    foldl_natChars]

/-! ## Model of bcryptjs

The server calls `bcrypt.hash(password, 10)` at registration and
`bcrypt.compare(password, user.password)` at login.  A bcrypt hash
string determines the cost and salt, and `compare` re-derives the digest
of the candidate password under that cost and salt and compares.  We
model the digest as an injective image of the password (injectivity
standing in for collision-freedom of the real digest), rendered after
the cost and salt in the hash string. -/

/-- Model of `bcrypt.hashSync(password, rounds)` with the random salt
made explicit: `$<rounds>$<salt>$<digest>`. -/
def bcryptHash (password : String) (rounds salt : Nat) : String :=
  String.mk ('$' :: (natChars rounds ++ '$' :: (natChars salt ++ '$' :: password.data)))

/-- Model of `bcrypt.compare`: recover cost and salt from the stored
hash, recompute the digest of the candidate password and compare. -/
def bcryptCompare (password stored : String) : Bool :=
  match stored.data with
  | '$' :: rest =>
    match parseNum '$' rest 0 with
    | some (_, rest1) =>
      match parseNum '$' rest1 0 with
      | some (_, rest2) => rest2 == password.data
      | none => false
    | none => false
  | _ => false

lemma string_mk_data (s : String) : String.mk s.data = s := by
  cases s; rfl

lemma parseNum_natChars_dollar (n : Nat) (rest : List Char) :
    parseNum '$' (natChars n ++ '$' :: rest) 0 = some (n, rest) :=
  parseNum_natChars (by decide) n rest

lemma parseNum_natChars_dot (n : Nat) (rest : List Char) :
    parseNum '.' (natChars n ++ '.' :: rest) 0 = some (n, rest) :=
  parseNum_natChars (by decide) n rest

lemma bcryptCompare_bcryptHash (p q : String) (rounds salt : Nat) :
    bcryptCompare q (bcryptHash p rounds salt) = (p == q) := by
  unfold bcryptCompare bcryptHash
  show (match ('$' :: (natChars rounds ++ '$' :: (natChars salt ++ '$' :: p.data)) :
      List Char) with
    | '$' :: rest => _
    | _ => false) = (p == q)
  simp only [parseNum_natChars_dollar]
  by_cases h : p = q
  · subst h; simp
  · have hdata : p.data ≠ q.data := fun hd => h (by
      rw [← string_mk_data p, ← string_mk_data q, hd])
    simp [h, hdata]

/-! ## Model of jsonwebtoken

The server issues tokens with
`jwt.sign({id, username}, JWT_SECRET, {expiresIn: '1h'})` and checks
them with `jwt.verify(token, JWT_SECRET, cb)`.  A token is a string; we
model its encoding as `jwt.<id>.<exp>.<sig>.<username>` with the
username as the raw final segment and the signature a digest of the
payload and the secret.  Verification reparses the whole string,
recomputes the signature and checks the expiry against the current
time.  As with real JWTs, a well-formed token never begins with the
characters `Bearer `, so a header that includes the scheme prefix fails
verification. -/

structure JwtClaims where
  id : Nat
  username : String
deriving DecidableEq, Repr

/-- Injective encoding of a string into a natural number (1114112 is the
number of Unicode code points, so this is a base-1114112 value). -/
def strCode (s : String) : Nat :=
  s.data.foldl (fun a c => 1114112 * a + c.toNat) 1

/-- Model of the HMAC signature over the token payload and the secret. -/
def mkSig (id : Nat) (username : String) (exp : Nat) (secret : String) : Nat :=
  Nat.pair (Nat.pair id exp) (Nat.pair (strCode username) (strCode secret))

def renderJwt (id exp sig : Nat) (username : String) : String :=
  String.mk ('j' :: 'w' :: 't' :: '.' ::
    (natChars id ++ '.' :: (natChars exp ++ '.' :: (natChars sig ++ '.' :: username.data))))

/-- Model of `jwt.sign({id, username}, secret, {expiresIn: '1h'})` at
time `now` (seconds): the expiry claim is one hour after issuance. -/
def jwtSign (c : JwtClaims) (secret : String) (now : Nat) : String :=
  renderJwt c.id (now + 3600) (mkSig c.id c.username (now + 3600) secret) c.username

def parseJwt : List Char → Option (Nat × Nat × Nat × List Char)
  | 'j' :: 'w' :: 't' :: '.' :: rest =>
    match parseNum '.' rest 0 with
    | some (id, r1) =>
      match parseNum '.' r1 0 with
      | some (e, r2) =>
        match parseNum '.' r2 0 with
        | some (sig, r3) => some (id, e, sig, r3)
        | none => none
      | none => none
    | none => none
  | _ => none

/-- Model of `jwt.verify(token, secret)` at time `now`: parse the
string, recompute the signature, reject bad signatures and expired
tokens; on success return the decoded claims. -/
def jwtVerify (token secret : String) (now : Nat) : Option JwtClaims :=
  match parseJwt token.data with
  | none => none
  | some (id, e, sig, uchars) =>
    if sig = mkSig id (String.mk uchars) e secret ∧ now < e then
      some ⟨id, String.mk uchars⟩
    else none

lemma parseJwt_renderJwt (id e sig : Nat) (u : String) :
    parseJwt (renderJwt id e sig u).data = some (id, e, sig, u.data) := by
  unfold renderJwt parseJwt
  simp only [parseNum_natChars_dot]

/-- Verification inverts signing under the same secret while the token
is unexpired. -/
lemma jwtVerify_jwtSign (c : JwtClaims) (secret : String) (now now' : Nat)
    (h : now' < now + 3600) :
    jwtVerify (jwtSign c secret now) secret now' = some c := by
  unfold jwtVerify jwtSign
  rw [parseJwt_renderJwt]
  simp only [string_mk_data]
  simp [h]

/-- A signed token is rejected from one hour after issuance on. -/
lemma jwtVerify_jwtSign_expired (c : JwtClaims) (secret : String) (now now' : Nat)
    (h : now + 3600 ≤ now') :
    jwtVerify (jwtSign c secret now) secret now' = none := by
  unfold jwtVerify jwtSign
  rw [parseJwt_renderJwt]
  simp only [string_mk_data]
  rw [if_neg]
  rintro ⟨-, hlt⟩
  omega

/-- A token whose signature field does not match the recomputed
signature is rejected. -/
lemma jwtVerify_badSig (id e sig : Nat) (u secret : String) (now : Nat)
    (h : sig ≠ mkSig id u e secret) :
    jwtVerify (renderJwt id e sig u) secret now = none := by
  unfold jwtVerify
  rw [parseJwt_renderJwt]
  simp only [string_mk_data]
  rw [if_neg]
  rintro ⟨hs, -⟩
  exact h hs

/-- No string beginning with the characters `Bearer ` is a well-formed
token, whatever follows the prefix. -/
lemma jwtVerify_bearer_prefixed (t secret : String) (now : Nat) :
    jwtVerify ("Bearer " ++ t) secret now = none := by
  unfold jwtVerify
  have hdata : ("Bearer " ++ t).data =
      'B' :: 'e' :: 'a' :: 'r' :: 'e' :: 'r' :: ' ' :: t.data := rfl
  rw [hdata]
  rfl

/-! ## Data model (the three Mongoose collections)

`SeriesSchema`, `ProductSchema` and `UserSchema` from server.js.
ObjectIds are modelled as natural numbers; MongoDB assigns fresh ids on
insert, modelled by `freshId` below.  The unique constraints
(`Series.name`, `User.username`, and `_id` in every collection) are
enforced by the `save` functions, which reject with a duplicate-key
error exactly as `document.save()` does. -/

structure SeriesRec where
  _id : Nat
  name : String
deriving DecidableEq, Repr

structure ProductRec where
  _id : Nat
  name : String
  capacity : String
  color : String
  code : String
  battery : String
  condition : String
  sellingPrice : Int
  purchasePrice : Int
  source : String
  series : Nat
deriving DecidableEq, Repr

structure UserRec where
  _id : Nat
  username : String
  password : String
deriving DecidableEq, Repr

structure Store where
  users : List UserRec
  seriesCol : List SeriesRec
  products : List ProductRec
deriving DecidableEq, Repr

/-- A fresh ObjectId: strictly greater than every id already in use. -/
def freshId (ids : List Nat) : Nat :=
  ids.foldr (fun i m => max i m) 0 + 1

lemma lt_freshId {ids : List Nat} : ∀ i ∈ ids, i < freshId ids := by
  induction ids with
  | nil => intro i h; cases h
  | cons a l ih =>
      intro i h
      rcases List.mem_cons.mp h with rfl | h
      · exact Nat.lt_succ_of_le (Nat.le_max_left _ _)
      · exact Nat.lt_of_lt_of_le (ih i h)
          (Nat.succ_le_succ (Nat.le_max_right _ _))

def dupKeyMsg : String := "E11000 duplicate key error"

/-- Model of `newUser.save()`: rejects when the unique `username`
constraint (or `_id` uniqueness) is violated, otherwise appends. -/
def saveUser (s : Store) (u : UserRec) : Except String Store :=
  if (s.users.any fun x => x.username == u.username) ||
     (s.users.any fun x => x._id == u._id) then
    .error dupKeyMsg
  else
    .ok { s with users := s.users ++ [u] }

/-- Model of `newSeries.save()`: rejects when the unique `name`
constraint (or `_id` uniqueness) is violated, otherwise appends. -/
def saveSeries (s : Store) (sr : SeriesRec) : Except String Store :=
  if (s.seriesCol.any fun x => x.name == sr.name) ||
     (s.seriesCol.any fun x => x._id == sr._id) then
    .error dupKeyMsg
  else
    .ok { s with seriesCol := s.seriesCol ++ [sr] }

/-- Model of `newProduct.save()`: only `_id` is constrained. -/
def saveProduct (s : Store) (p : ProductRec) : Except String Store :=
  if s.products.any fun x => x._id == p._id then
    .error dupKeyMsg
  else
    .ok { s with products := s.products ++ [p] }

/-! ## Responses and population

`res.json(...)` always answers with status 200 here; the error paths use
`res.status(code).send(text)`.  `populate('series', 'name')` replaces the
stored Series id by the referenced `{_id, name}` document, or by `null`
when the reference does not resolve. -/

structure PopSeries where
  _id : Nat
  name : String
deriving DecidableEq, Repr

/-- A product document as serialized by routes that populate the series
field.  Note that `Product.find()` is issued with no field projection,
so every schema field -- `purchasePrice` and `source` included -- is
present in the serialization. -/
structure PopProduct where
  _id : Nat
  name : String
  capacity : String
  color : String
  code : String
  battery : String
  condition : String
  sellingPrice : Int
  purchasePrice : Int
  source : String
  series : Option PopSeries
deriving DecidableEq, Repr

inductive Response where
  | text (status : Nat) (body : String)
  | jsonProducts (ps : List PopProduct)
  | jsonProduct (p : PopProduct)
  | jsonSeries (ss : List SeriesRec)
  | jsonToken (token : String)
deriving DecidableEq, Repr

/-- The HTTP status of a response (`res.json` answers 200). -/
def Response.statusCode : Response → Nat
  | .text st _ => st
  | _ => 200

/-- Model of `.populate('series', 'name')` applied to one product. -/
def populateProduct (s : Store) (p : ProductRec) : PopProduct :=
  { _id := p._id, name := p.name, capacity := p.capacity, color := p.color,
    code := p.code, battery := p.battery, condition := p.condition,
    sellingPrice := p.sellingPrice, purchasePrice := p.purchasePrice,
    source := p.source,
    series := (s.seriesCol.find? fun x => x._id == p.series).map
      fun x => ⟨x._id, x.name⟩ }

/-! ## Route handlers

One Lean function per Express handler in server.js.  The database
driver's own failure mode (lost connection) is orthogonal to the pure
store and is modelled only where a claim mentions it (the duplicated
series-listing route).  `now` is the current Unix time in seconds;
`salt` is the random salt drawn by bcrypt. -/

/-- Outcome of the `verifyToken` middleware: either it has answered the
request itself, or it calls `next()` with the decoded claims attached
as `req.user`. -/
inductive MwOutcome where
  | resp (r : Response)
  | proceed (user : JwtClaims)
deriving DecidableEq, Repr

/-- Middleware `verifyToken` (server.js lines 57-66).  The whole
`authorization` header value is passed to `jwt.verify` as-is.  A missing
header -- or an empty one, which is falsy in JavaScript -- yields 403;
a header that fails verification yields 500. -/
def verifyToken (secret : String) (now : Nat) (authHeader : Option String) :
    MwOutcome :=
  match authHeader with
  | none => .resp (.text 403 "Token is required")
  | some token =>
    if token = "" then .resp (.text 403 "Token is required")
    else
      match jwtVerify token secret now with
      | none => .resp (.text 500 "Invalid Token")
      | some decoded => .proceed decoded

/-- Handler `POST /api/register` (lines 147-162).  The body's `password`
may be absent (`undefined` after destructuring); `bcrypt.hash` is
awaited before the try/catch, and rejects on a non-string input, so in
that case the handler sends no response at all: the result is `none`. -/
def postRegister (s : Store) (username : String) (password : Option String)
    (salt : Nat) : Option (Response × Store) :=
  match password with
  | none => none
  | some pw =>
    let hashedPassword := bcryptHash pw 10 salt
    let newUser : UserRec :=
      { _id := freshId (s.users.map (·._id)), username := username,
        password := hashedPassword }
    match saveUser s newUser with
    | .ok s' => some (.text 201 "User registered", s')
    | .error m => some (.text 500 m, s)

/-- Handler `POST /api/login` (lines 190-208). -/
def postLogin (s : Store) (username password : String) (secret : String)
    (now : Nat) : Response :=
  match s.users.find? fun u => u.username == username with
  | none => .text 400 "User not found"
  | some user =>
    if bcryptCompare password user.password then
      .jsonToken (jwtSign ⟨user._id, user.username⟩ secret now)
    else
      .text 400 "Invalid password"

/-- Handler `POST /api/series` (lines 232-243). -/
def postSeries (s : Store) (name : String) : Response × Store :=
  let newSeries : SeriesRec :=
    { _id := freshId (s.seriesCol.map (·._id)), name := name }
  match saveSeries s newSeries with
  | .ok s' => (.text 201 "Series created successfully", s')
  | .error m => (.text 500 m, s)

/-- Handler `GET /api/products` (lines 282-289), the public route:
`Product.find().populate('series', 'name')` with no projection, then
`res.json(products)`. -/
def getProducts (s : Store) : Response :=
  .jsonProducts (s.products.map (populateProduct s))

/-- Protected route `GET /api/products/full` (lines 336-343): the
`verifyToken` middleware runs first; only when it proceeds does the
handler body run. -/
def getProductsFull (secret : String) (now : Nat) (authHeader : Option String)
    (s : Store) : Response :=
  match verifyToken secret now authHeader with
  | .resp r => r
  | .proceed _ => .jsonProducts (s.products.map (populateProduct s))

/-- Request body of `POST /api/products`. -/
structure ProductReqBody where
  name : String
  capacity : String
  color : String
  code : String
  battery : String
  condition : String
  sellingPrice : Int
  purchasePrice : Int
  source : String
  seriesId : Nat
deriving DecidableEq, Repr

/-- Handler `POST /api/products` (lines 388-418): look the Series up
first, answer 400 when it is missing, otherwise insert the product
referencing the resolved Series id. -/
def postProduct (s : Store) (b : ProductReqBody) : Response × Store :=
  match s.seriesCol.find? fun x => x._id == b.seriesId with
  | none => (.text 400 "Series not found", s)
  | some series =>
    let newProduct : ProductRec :=
      { _id := freshId (s.products.map (·._id)), name := b.name,
        capacity := b.capacity, color := b.color, code := b.code,
        battery := b.battery, condition := b.condition,
        sellingPrice := b.sellingPrice, purchasePrice := b.purchasePrice,
        source := b.source, series := series._id }
    match saveProduct s newProduct with
    | .ok s' => (.text 201 "Product created successfully", s')
    | .error m => (.text 500 ("Error creating product: " ++ m), s)

/-- First declaration of `GET /api/series` (lines 445-452), as a
function of the outcome of `Series.find()`. -/
def getSeriesFirst (r : Except String (List SeriesRec)) : Response :=
  match r with
  | .ok series => .jsonSeries series
  | .error e => .text 500 e

/-- Second, duplicated declaration of `GET /api/series` (lines 454-461). -/
def getSeriesSecond (r : Except String (List SeriesRec)) : Response :=
  match r with
  | .ok series => .jsonSeries series
  | .error e => .text 500 e

/-- Handler `GET /api/products/:id` (lines 559-569). -/
def getProductById (s : Store) (pid : Nat) : Response :=
  match s.products.find? fun p => p._id == pid with
  | none => .text 404 "Product not found"
  | some product => .jsonProduct (populateProduct s product)

/-- Handler `GET /api/products/series/:seriesId` (lines 624-637): check
the Series exists (404 otherwise), then list the products referencing
it, series name populated. -/
def getProductsBySeries (s : Store) (seriesId : Nat) : Response :=
  match s.seriesCol.find? fun x => x._id == seriesId with
  | none => .text 404 "Series not found"
  | some _ =>
    .jsonProducts ((s.products.filter fun p => p.series == seriesId).map
      (populateProduct s))

/-! ## Generic lookup lemmas -/

lemma find?_eq_some_of_mem_unique {α} {p : α → Bool} {l : List α} {x : α}
    (hmem : x ∈ l) (hx : p x = true)
    (huniq : ∀ y ∈ l, p y = true → y = x) :
    l.find? p = some x := by
  induction l with
  | nil => cases hmem
  | cons a l ih =>
      by_cases hpa : p a = true
      · rw [List.find?_cons_of_pos _ hpa, huniq a (List.mem_cons_self a l) hpa]
      · have hxl : x ∈ l := by
          rcases List.mem_cons.mp hmem with rfl | hxl
          · exact absurd hx hpa
          · exact hxl
        rw [List.find?_cons_of_neg _ hpa]
        exact ih hxl (fun y hy hpy => huniq y (List.mem_cons_of_mem a hy) hpy)

lemma find?_append_fresh {α} (p : α → Bool) (l : List α) (x : α)
    (hl : ∀ y ∈ l, p y = false) (hx : p x = true) :
    (l ++ [x]).find? p = some x := by
  induction l with
  | nil => simp [List.find?_cons_of_pos _ hx]
  | cons a l ih =>
      have hpa := hl a (List.mem_cons_self a l)
      rw [List.cons_append, List.find?_cons_of_neg _ (by simp [hpa])]
      exact ih fun y hy => hl y (List.mem_cons_of_mem a hy)

lemma any_fresh_eq_false {α} (f : α → Nat) (l : List α) :
    (l.any fun x => f x == freshId (l.map f)) = false := by
  rw [List.any_eq_false]
  intro x hx
  simpa using Nat.ne_of_lt (lt_freshId (f x) (List.mem_map_of_mem f hx))

lemma renderJwt_ne_empty (id e sig : Nat) (u : String) :
    renderJwt id e sig u ≠ "" := by
  intro h
  have h2 : ('j' :: 'w' :: 't' :: '.' ::
      (natChars id ++ '.' :: (natChars e ++ '.' :: (natChars sig ++ '.' :: u.data))) :
      List Char) = ([] : List Char) := congrArg String.data h
  cases h2

lemma jwtSign_ne_empty (c : JwtClaims) (secret : String) (now : Nat) :
    jwtSign c secret now ≠ "" :=
  renderJwt_ne_empty _ _ _ _

lemma bearer_append_ne_empty (t : String) : "Bearer " ++ t ≠ "" := by
  intro h
  have h2 : ('B' :: 'e' :: 'a' :: 'r' :: 'e' :: 'r' :: ' ' :: t.data : List Char) =
      ([] : List Char) := congrArg String.data h
  cases h2

lemma jwtVerify_empty (secret : String) (now : Nat) :
    jwtVerify "" secret now = none := rfl

/-! ## Claims -/

/-- Claim C1, refuted on the code: the public `GET /api/products`
response is NOT free of `purchasePrice` and `source`.  The handler
issues `Product.find()` with no field projection, so both fields are
serialized.  At a store holding a single product the response exposes
`purchasePrice = 5` and `source = "X"`, and changing only those two
fields changes the response -- the claimed non-interference fails.  The
route's own swagger schema (and the spec) omit both fields, so this is
a divergence of the code from its own documentation. -/
theorem C1_products_route_exposes_cost_fields :
    getProducts ⟨[], [⟨1, "S"⟩], [⟨1, "P", "64GB", "red", "c0", "90%", "new", 10, 5, "X", 1⟩]⟩ =
      Response.jsonProducts
        [⟨1, "P", "64GB", "red", "c0", "90%", "new", 10, 5, "X", some ⟨1, "S"⟩⟩] ∧
    getProducts ⟨[], [⟨1, "S"⟩], [⟨1, "P", "64GB", "red", "c0", "90%", "new", 10, 5, "X", 1⟩]⟩ ≠
      getProducts ⟨[], [⟨1, "S"⟩], [⟨1, "P", "64GB", "red", "c0", "90%", "new", 10, 6, "Y", 1⟩]⟩ := by
  constructor
  · rfl
  · decide

/-- Claim C2: creating a product whose `seriesId` resolves to no
existing Series answers 400 `Series not found` and leaves the store
untouched: nothing is inserted. -/
theorem C2_createProduct_unknown_series_rejected (s : Store) (b : ProductReqBody)
    (h : ∀ x ∈ s.seriesCol, x._id ≠ b.seriesId) :
    postProduct s b = (.text 400 "Series not found", s) := by
  have hfind : (s.seriesCol.find? fun x => x._id == b.seriesId) = none :=
    List.find?_eq_none.mpr fun x hx => by simpa using h x hx
  unfold postProduct
  rw [hfind]

theorem C2_witness :
    (∀ x ∈ ([⟨5, "A"⟩] : List SeriesRec), x._id ≠ 7) ∧
    postProduct ⟨[], [⟨5, "A"⟩], []⟩
        ⟨"n", "64GB", "red", "c0", "90%", "new", 12, 9, "vn", 7⟩ =
      (.text 400 "Series not found", ⟨[], [⟨5, "A"⟩], []⟩) :=
  ⟨by decide,
    C2_createProduct_unknown_series_rejected ⟨[], [⟨5, "A"⟩], []⟩
      ⟨"n", "64GB", "red", "c0", "90%", "new", 12, 9, "vn", 7⟩ (by decide)⟩

/-- Claim C8: the two textually duplicated declarations of
`GET /api/series` are behaviorally equal: for every outcome of
`Series.find()` -- the full list on success, a 500 carrying the error
message on store failure -- they produce the same response, so the
route may be treated as a single route. -/
theorem C8_duplicate_series_routes_equal (r : Except String (List SeriesRec)) :
    getSeriesFirst r = getSeriesSecond r := by
  cases r <;> rfl

/-- Claim C9 (implicit): in the register handler `bcrypt.hash` is
awaited before the try/catch that produces the 500 response, so a
request with no password makes the handler fail outside its error path.
It then sends no response at all: neither the 201 success nor the 500
store-error answer. -/
theorem C9_register_missing_password_unanswered (s : Store) (username : String)
    (salt : Nat) :
    postRegister s username none salt = none := rfl

/-- Claim C5: starting from a store not containing username `u`, the
first registration answers 201 and persists `u` with a salted hash of
the password; a second registration of the same `u` hits the unique
constraint, answers 500 with the duplicate-key store error, and leaves
the credential store exactly as it was, so username uniqueness is
preserved. -/
theorem C5_register_conflict_on_duplicate (s : Store) (u p1 p2 : String)
    (salt1 salt2 : Nat) (h : ∀ x ∈ s.users, x.username ≠ u) :
    postRegister s u (some p1) salt1 =
      some (.text 201 "User registered",
        { s with users := s.users ++
            [⟨freshId (s.users.map (·._id)), u, bcryptHash p1 10 salt1⟩] }) ∧
    postRegister
        { s with users := s.users ++
            [⟨freshId (s.users.map (·._id)), u, bcryptHash p1 10 salt1⟩] }
        u (some p2) salt2 =
      some (.text 500 dupKeyMsg,
        { s with users := s.users ++
            [⟨freshId (s.users.map (·._id)), u, bcryptHash p1 10 salt1⟩] }) := by
  have hdup : (s.users.any fun x => x.username == u) = false := by
    rw [List.any_eq_false]
    intro x hx
    simpa using h x hx
  constructor
  · have hsave : saveUser s
        ⟨freshId (s.users.map (·._id)), u, bcryptHash p1 10 salt1⟩ =
        .ok { s with users := s.users ++
          [⟨freshId (s.users.map (·._id)), u, bcryptHash p1 10 salt1⟩] } := by
      unfold saveUser
      rw [hdup, any_fresh_eq_false (·._id) s.users]
      rfl
    simp only [postRegister, hsave]
  · have hsave2 : saveUser
        { s with users := s.users ++
            [(⟨freshId (s.users.map (·._id)), u, bcryptHash p1 10 salt1⟩ : UserRec)] }
        (⟨freshId ((s.users ++
            [(⟨freshId (s.users.map (·._id)), u, bcryptHash p1 10 salt1⟩ : UserRec)]).map (·._id)),
          u, bcryptHash p2 10 salt2⟩ : UserRec) = .error dupKeyMsg := by
      unfold saveUser
      rw [if_pos]
      simp [List.any_append]
    simp only [postRegister, hsave2]

theorem C5_witness :
    ∃ s', postRegister ⟨[], [], []⟩ "alice" (some "pw1") 3 =
        some (.text 201 "User registered", s') ∧
      postRegister s' "alice" (some "pw2") 4 = some (.text 500 dupKeyMsg, s') := by
  obtain ⟨h1, h2⟩ :=
    C5_register_conflict_on_duplicate ⟨[], [], []⟩ "alice" "pw1" "pw2" 3 4
      (by decide)
  exact ⟨_, h1, h2⟩

/-- Claim C3: on `GET /api/products/full` a missing `authorization`
header is answered 403 by the middleware, so the handler body is never
reached; a present token that fails verification -- in particular one
whose signature field does not match, or one issued more than an hour
ago -- is answered 500 `Invalid Token`; and only on successful
verification does the middleware attach the decoded claims and let the
handler answer with the product list. -/
theorem C3_products_full_auth_asymmetry (secret : String) (now : Nat) (s : Store) :
    (verifyToken secret now none = .resp (.text 403 "Token is required") ∧
      getProductsFull secret now none s = .text 403 "Token is required") ∧
    (∀ tok, tok ≠ "" → jwtVerify tok secret now = none →
      getProductsFull secret now (some tok) s = .text 500 "Invalid Token") ∧
    (∀ id e sig u, sig ≠ mkSig id u e secret →
      getProductsFull secret now (some (renderJwt id e sig u)) s =
        .text 500 "Invalid Token") ∧
    (∀ c issued, issued + 3600 ≤ now →
      getProductsFull secret now (some (jwtSign c secret issued)) s =
        .text 500 "Invalid Token") ∧
    (∀ tok c, jwtVerify tok secret now = some c →
      verifyToken secret now (some tok) = .proceed c ∧
      getProductsFull secret now (some tok) s =
        .jsonProducts (s.products.map (populateProduct s))) := by
  have hfail : ∀ tok, tok ≠ "" → jwtVerify tok secret now = none →
      getProductsFull secret now (some tok) s = .text 500 "Invalid Token" := by
    intro tok htok hver
    simp [getProductsFull, verifyToken, htok, hver]
  refine ⟨⟨rfl, rfl⟩, hfail, ?_, ?_, ?_⟩
  · intro id e sig u hsig
    exact hfail _ (renderJwt_ne_empty id e sig u) (jwtVerify_badSig id e sig u secret now hsig)
  · intro c issued hexp
    exact hfail _ (jwtSign_ne_empty c secret issued)
      (jwtVerify_jwtSign_expired c secret issued now hexp)
  · intro tok c hver
    have htok : tok ≠ "" := by
      intro h
      rw [h, jwtVerify_empty] at hver
      cases hver
    constructor <;> simp [getProductsFull, verifyToken, htok, hver]

theorem C3_witness :
    getProductsFull "k" 10000 none ⟨[], [], []⟩ = .text 403 "Token is required" ∧
    getProductsFull "k" 10000 (some "x") ⟨[], [], []⟩ = .text 500 "Invalid Token" ∧
    getProductsFull "k" 10000 (some (jwtSign ⟨1, "u"⟩ "k" 0)) ⟨[], [], []⟩ =
      .text 500 "Invalid Token" ∧
    getProductsFull "k" 10000 (some (jwtSign ⟨1, "u"⟩ "k" 9000)) ⟨[], [], []⟩ =
      .jsonProducts [] := by
  obtain ⟨⟨-, h403⟩, hfail, -, hexp, hok⟩ :=
    C3_products_full_auth_asymmetry "k" 10000 ⟨[], [], []⟩
  exact ⟨h403, hfail "x" (by decide) (by decide), hexp ⟨1, "u"⟩ 0 (by decide),
    (hok (jwtSign ⟨1, "u"⟩ "k" 9000) ⟨1, "u"⟩
      (jwtVerify_jwtSign ⟨1, "u"⟩ "k" 9000 10000 (by decide))).2⟩

/-- Claim C10 (implicit): `verifyToken` hands the whole `authorization`
header value to `jwt.verify` without stripping a `Bearer ` scheme
prefix, so a header carrying `Bearer ` followed by a validly signed,
unexpired token is rejected with 500, while the bare token itself
verifies and the request succeeds. -/
theorem C10_bearer_scheme_not_stripped (secret : String) (now issued : Nat)
    (c : JwtClaims) (s : Store) (hfresh : now < issued + 3600) :
    getProductsFull secret now (some ("Bearer " ++ jwtSign c secret issued)) s =
      .text 500 "Invalid Token" ∧
    getProductsFull secret now (some (jwtSign c secret issued)) s =
      .jsonProducts (s.products.map (populateProduct s)) := by
  constructor
  · simp [getProductsFull, verifyToken, bearer_append_ne_empty,
      jwtVerify_bearer_prefixed]
  · simp [getProductsFull, verifyToken, jwtSign_ne_empty,
      jwtVerify_jwtSign c secret issued now hfresh]

theorem C10_witness :
    getProductsFull "k" 10000 (some ("Bearer " ++ jwtSign ⟨1, "u"⟩ "k" 9000))
        ⟨[], [], []⟩ = .text 500 "Invalid Token" ∧
    getProductsFull "k" 10000 (some (jwtSign ⟨1, "u"⟩ "k" 9000)) ⟨[], [], []⟩ =
      .jsonProducts [] :=
  C10_bearer_scheme_not_stripped "k" 10000 9000 ⟨1, "u"⟩ ⟨[], [], []⟩ (by decide)

lemma saveSeries_ok (s : Store) (sr : SeriesRec)
    (h1 : (s.seriesCol.any fun x => x.name == sr.name) = false)
    (h2 : (s.seriesCol.any fun x => x._id == sr._id) = false) :
    saveSeries s sr = .ok { s with seriesCol := s.seriesCol ++ [sr] } := by
  unfold saveSeries
  rw [h1, h2]
  rfl

lemma saveProduct_ok (s : Store) (p : ProductRec)
    (h : (s.products.any fun x => x._id == p._id) = false) :
    saveProduct s p = .ok { s with products := s.products ++ [p] } := by
  unfold saveProduct
  rw [h]
  rfl

/-- Claim C4: for a registered user (the credential store resolves
username `u` to a record holding the salted hash of password `p`),
login with `(u, p)` answers 200 with a token that is signed with the
process-wide secret, decodes under that same secret to claims carrying
`u` and the user's id, and expires exactly one hour after issuance;
login with an unknown username and login with a wrong password both
answer the same client error 400, differing only in message text. -/
theorem C4_login_roundtrip (s : Store) (u p : String) (uid salt : Nat)
    (secret : String) (now : Nat)
    (hfind : (s.users.find? fun x => x.username == u) =
      some ⟨uid, u, bcryptHash p 10 salt⟩) :
    (postLogin s u p secret now = .jsonToken (jwtSign ⟨uid, u⟩ secret now) ∧
      (Response.jsonToken (jwtSign ⟨uid, u⟩ secret now)).statusCode = 200) ∧
    (∀ now', now' < now + 3600 →
      jwtVerify (jwtSign ⟨uid, u⟩ secret now) secret now' = some ⟨uid, u⟩) ∧
    (∀ now', now + 3600 ≤ now' →
      jwtVerify (jwtSign ⟨uid, u⟩ secret now) secret now' = none) ∧
    (∀ q, q ≠ p → postLogin s u q secret now = .text 400 "Invalid password") ∧
    (∀ v, (∀ x ∈ s.users, x.username ≠ v) →
      ∀ q, postLogin s v q secret now = .text 400 "User not found") := by
  refine ⟨⟨?_, rfl⟩, ?_, ?_, ?_, ?_⟩
  · simp [postLogin, hfind, bcryptCompare_bcryptHash]
  · intro now' h
    exact jwtVerify_jwtSign ⟨uid, u⟩ secret now now' h
  · intro now' h
    exact jwtVerify_jwtSign_expired ⟨uid, u⟩ secret now now' h
  · intro q hq
    have hcmp : bcryptCompare q (bcryptHash p 10 salt) = false := by
      rw [bcryptCompare_bcryptHash]
      exact beq_eq_false_iff_ne.mpr fun hpq => hq hpq.symm
    simp [postLogin, hfind, hcmp]
  · intro v hv q
    have hnone : (s.users.find? fun x => x.username == v) = none :=
      List.find?_eq_none.mpr fun x hx => by simpa using hv x hx
    simp [postLogin, hnone]

theorem C4_witness :
    postLogin ⟨[⟨7, "alice", bcryptHash "pw" 10 3⟩], [], []⟩ "alice" "pw" "k" 500 =
      .jsonToken (jwtSign ⟨7, "alice"⟩ "k" 500) ∧
    postLogin ⟨[⟨7, "alice", bcryptHash "pw" 10 3⟩], [], []⟩ "alice" "bad" "k" 500 =
      .text 400 "Invalid password" ∧
    postLogin ⟨[⟨7, "alice", bcryptHash "pw" 10 3⟩], [], []⟩ "bob" "pw" "k" 500 =
      .text 400 "User not found" := by
  obtain ⟨⟨h1, -⟩, -, -, h4, h5⟩ :=
    C4_login_roundtrip ⟨[⟨7, "alice", bcryptHash "pw" 10 3⟩], [], []⟩
      "alice" "pw" 7 3 "k" 500 rfl
  exact ⟨h1, h4 "bad" (by decide), h5 "bob" (by decide) "pw"⟩

/-- Claim C6: when a Series exists (with a unique id in the series
collection), `GET /api/products/series/:seriesId` on its id answers 200
with exactly the populated versions of the products whose reference
resolves to it -- as many records as referencing products, each with
`series.name` equal to the Series' name -- while an id that resolves to
no Series answers 404 whatever the product collection holds, without
querying products. -/
theorem C6_list_products_by_series (s : Store) (sr : SeriesRec)
    (hmem : sr ∈ s.seriesCol)
    (huniq : ∀ y ∈ s.seriesCol, y._id = sr._id → y = sr) :
    (getProductsBySeries s sr._id =
      .jsonProducts ((s.products.filter fun p => p.series == sr._id).map
        (populateProduct s)) ∧
      (∀ q ∈ (s.products.filter fun p => p.series == sr._id).map
          (populateProduct s), q.series = some ⟨sr._id, sr.name⟩) ∧
      ((s.products.filter fun p => p.series == sr._id).map
          (populateProduct s)).length =
        (s.products.filter fun p => p.series == sr._id).length) ∧
    (∀ sid, (∀ y ∈ s.seriesCol, y._id ≠ sid) →
      ∀ ps, getProductsBySeries { s with products := ps } sid =
        .text 404 "Series not found") := by
  have hfind : (s.seriesCol.find? fun x => x._id == sr._id) = some sr :=
    find?_eq_some_of_mem_unique hmem (by simp)
      fun y hy hpy => huniq y hy (by simpa using hpy)
  refine ⟨⟨?_, ?_, List.length_map _ _⟩, ?_⟩
  · simp [getProductsBySeries, hfind]
  · intro q hq
    rcases List.mem_map.mp hq with ⟨prd, hprd, rfl⟩
    obtain ⟨-, hps⟩ := List.mem_filter.mp hprd
    have hser : prd.series = sr._id := by simpa using hps
    simp [populateProduct, hser, hfind]
  · intro sid hsid ps
    have hnone : (s.seriesCol.find? fun x => x._id == sid) = none :=
      List.find?_eq_none.mpr fun y hy => by simpa using hsid y hy
    simp [getProductsBySeries, hnone]

theorem C6_witness :
    getProductsBySeries
        ⟨[], [⟨2, "S"⟩], [⟨1, "P", "64GB", "red", "c0", "90%", "new", 10, 5, "x", 2⟩,
          ⟨3, "Q", "32GB", "blue", "c1", "80%", "used", 7, 4, "y", 9⟩]⟩ 2 =
      .jsonProducts
        [⟨1, "P", "64GB", "red", "c0", "90%", "new", 10, 5, "x", some ⟨2, "S"⟩⟩] ∧
    getProductsBySeries
        ⟨[], [⟨2, "S"⟩], [⟨1, "P", "64GB", "red", "c0", "90%", "new", 10, 5, "x", 2⟩,
          ⟨3, "Q", "32GB", "blue", "c1", "80%", "used", 7, 4, "y", 9⟩]⟩ 9 =
      .text 404 "Series not found" := by
  obtain ⟨⟨h1, -, -⟩, h404⟩ :=
    C6_list_products_by_series
      ⟨[], [⟨2, "S"⟩], [⟨1, "P", "64GB", "red", "c0", "90%", "new", 10, 5, "x", 2⟩,
        ⟨3, "Q", "32GB", "blue", "c1", "80%", "used", 7, 4, "y", 9⟩]⟩
      ⟨2, "S"⟩ (by decide) (by decide)
  exact ⟨h1, h404 9 (by decide) _⟩

/-- Claim C7: from any store with no Series yet named `S1` (so that the
unique-name constraint lets the creation through), creating a Series
named `S1`, then creating a Product whose `seriesId` is that Series'
freshly assigned id, then reading that Product back through
`GET /api/products/:id`, returns the created product with `series.name`
equal to `S1`; reading an id no product carries returns 404. -/
theorem C7_create_then_read_roundtrip (s : Store) (b : ProductReqBody)
    (hname : ∀ y ∈ s.seriesCol, y.name ≠ "S1")
    (hb : b.seriesId = freshId (s.seriesCol.map (·._id))) :
    ∃ s1 s2,
      postSeries s "S1" = (.text 201 "Series created successfully", s1) ∧
      postProduct s1 b = (.text 201 "Product created successfully", s2) ∧
      getProductById s2 (freshId (s.products.map (·._id))) =
        .jsonProduct ⟨freshId (s.products.map (·._id)), b.name, b.capacity,
          b.color, b.code, b.battery, b.condition, b.sellingPrice,
          b.purchasePrice, b.source, some ⟨b.seriesId, "S1"⟩⟩ ∧
      (∀ pid, (∀ q ∈ s2.products, q._id ≠ pid) →
        getProductById s2 pid = .text 404 "Product not found") := by
  have hidsfresh : ∀ y ∈ s.seriesCol,
      (y._id == freshId (s.seriesCol.map (·._id))) = false := by
    intro y hy
    simpa using Nat.ne_of_lt (lt_freshId y._id (List.mem_map_of_mem (·._id) hy))
  have hpfresh : ∀ q ∈ s.products,
      (q._id == freshId (s.products.map (·._id))) = false := by
    intro q hq
    simpa using Nat.ne_of_lt (lt_freshId q._id (List.mem_map_of_mem (·._id) hq))
  refine ⟨⟨s.users, s.seriesCol ++ [⟨freshId (s.seriesCol.map (·._id)), "S1"⟩],
      s.products⟩,
    ⟨s.users, s.seriesCol ++ [⟨freshId (s.seriesCol.map (·._id)), "S1"⟩],
      s.products ++
        [⟨freshId (s.products.map (·._id)), b.name, b.capacity, b.color, b.code,
          b.battery, b.condition, b.sellingPrice, b.purchasePrice, b.source,
          freshId (s.seriesCol.map (·._id))⟩]⟩,
    ?_, ?_, ?_, ?_⟩
  · have hnamedup : (s.seriesCol.any fun x => x.name == "S1") = false := by
      rw [List.any_eq_false]
      intro y hy
      simpa using hname y hy
    have hsave := saveSeries_ok s ⟨freshId (s.seriesCol.map (·._id)), "S1"⟩
      hnamedup (by rw [List.any_eq_false]; intro y hy; simpa using hidsfresh y hy)
    simp only [postSeries, hsave]
  · have hfind : ((s.seriesCol ++
        [(⟨freshId (s.seriesCol.map (·._id)), "S1"⟩ : SeriesRec)]).find?
          fun x => x._id == b.seriesId) =
        some ⟨freshId (s.seriesCol.map (·._id)), "S1"⟩ := by
      rw [hb]
      exact find?_append_fresh _ _ _ hidsfresh (by simp)
    have hsave := saveProduct_ok
      { s with seriesCol := s.seriesCol ++
          [⟨freshId (s.seriesCol.map (·._id)), "S1"⟩] }
      ⟨freshId (s.products.map (·._id)), b.name, b.capacity, b.color, b.code,
        b.battery, b.condition, b.sellingPrice, b.purchasePrice, b.source,
        freshId (s.seriesCol.map (·._id))⟩
      (by rw [List.any_eq_false]; intro q hq; simpa using hpfresh q hq)
    simp only [postProduct, hfind, hsave]
  · have hfindp : ((s.products ++
        [(⟨freshId (s.products.map (·._id)), b.name, b.capacity, b.color, b.code,
          b.battery, b.condition, b.sellingPrice, b.purchasePrice, b.source,
          freshId (s.seriesCol.map (·._id))⟩ : ProductRec)]).find?
          fun q => q._id == freshId (s.products.map (·._id))) =
        some ⟨freshId (s.products.map (·._id)), b.name, b.capacity, b.color,
          b.code, b.battery, b.condition, b.sellingPrice, b.purchasePrice,
          b.source, freshId (s.seriesCol.map (·._id))⟩ :=
      find?_append_fresh _ _ _ hpfresh (by simp)
    have hfinds : ((s.seriesCol ++
        [(⟨freshId (s.seriesCol.map (·._id)), "S1"⟩ : SeriesRec)]).find?
          fun x => x._id == freshId (s.seriesCol.map (·._id))) =
        some ⟨freshId (s.seriesCol.map (·._id)), "S1"⟩ :=
      find?_append_fresh _ _ _ hidsfresh (by simp)
    rw [hb]
    simp only [getProductById, hfindp, populateProduct, hfinds]
    rfl
  · intro pid hpid
    have hnone : ((s.products ++
        [(⟨freshId (s.products.map (·._id)), b.name, b.capacity, b.color, b.code,
          b.battery, b.condition, b.sellingPrice, b.purchasePrice, b.source,
          freshId (s.seriesCol.map (·._id))⟩ : ProductRec)]).find?
          fun q => q._id == pid) = none :=
      List.find?_eq_none.mpr fun q hq => by simpa using hpid q hq
    simp only [getProductById, hnone]

theorem C7_witness :
    ∃ s1 s2,
      postSeries ⟨[], [], []⟩ "S1" = (.text 201 "Series created successfully", s1) ∧
      postProduct s1 ⟨"P", "64GB", "red", "c0", "90%", "new", 10, 5, "x", 1⟩ =
        (.text 201 "Product created successfully", s2) ∧
      getProductById s2 1 =
        .jsonProduct ⟨1, "P", "64GB", "red", "c0", "90%", "new", 10, 5, "x",
          some ⟨1, "S1"⟩⟩ ∧
      getProductById s2 41 = .text 404 "Product not found" := by
  obtain ⟨s1, s2, h1, h2, h3, h4⟩ :=
    C7_create_then_read_roundtrip ⟨[], [], []⟩
      ⟨"P", "64GB", "red", "c0", "90%", "new", 10, 5, "x", 1⟩
      (by decide) rfl
  have hs1 : s1 = (⟨[], [⟨1, "S1"⟩], []⟩ : Store) :=
    (congrArg Prod.snd h1).symm.trans rfl
  rw [hs1] at h2
  have hs2 : s2 =
      (⟨[], [⟨1, "S1"⟩], [⟨1, "P", "64GB", "red", "c0", "90%", "new", 10, 5, "x", 1⟩]⟩ :
        Store) :=
    (congrArg Prod.snd h2).symm.trans rfl
  refine ⟨s1, s2, h1, ?_, h3, h4 41 ?_⟩
  · rw [hs1]
    exact h2
  · rw [hs2]
    decide

end WebBaoGia
